import Mathlib

/-!
Shallow embedding of the mini-user-management backend (Express/PostgreSQL),
covering the user model (`backend/src/models/user.model.js`), the auth and
user controllers (`auth.controller.js`, `user.controller.js`), the validators
(`utils/validators.js`), the JWT utilities (`utils/jwt.js`) and the global
Express error handler (`app.js`).

The database is modelled as a list of stored rows; each controller is a pure
function from the database and the request to the new database and a
response, with `Except` for the typed errors thrown by the controllers.
bcrypt comparison and hashing are abstracted as function parameters.
-/

namespace MiniUserMgmt

/-- A row of the `users` table.  Timestamps and ids are opaque strings. -/
structure StoredUser where
  id : String
  email : String
  password : String
  full_name : String
  role : String
  status : String
  last_login : String
  created_at : String
  updated_at : String
deriving Repr, DecidableEq

/-- A typed application error (`utils/AppError.js`): HTTP status code,
client error code, and message. -/
structure AppErr where
  statusCode : Nat
  code : String
  message : String
deriving Repr, DecidableEq

/-- UnauthorizedError from `utils/AppError.js`: status 401, code UNAUTHORIZED. -/
def unauthorizedError (m : String) : AppErr := ⟨401, "UNAUTHORIZED", m⟩

/-- ForbiddenError from `utils/AppError.js`: status 403, code FORBIDDEN. -/
def forbiddenError (m : String) : AppErr := ⟨403, "FORBIDDEN", m⟩

/-- NotFoundError from `utils/AppError.js`: status 404, code NOT_FOUND. -/
def notFoundError (m : String) : AppErr := ⟨404, "NOT_FOUND", m⟩

/-- ConflictError from `utils/AppError.js`: status 409, code CONFLICT. -/
def conflictError (m : String) : AppErr := ⟨409, "CONFLICT", m⟩

/-- JavaScript `String.prototype.toLowerCase` on the ASCII data this
system stores: lower-case every character. -/
def jsToLowerCase (s : String) : String :=
  ⟨s.data.map Char.toLower⟩

/-- JavaScript `String.prototype.toUpperCase` on the ASCII data this
system stores: upper-case every character. -/
def jsToUpperCase (s : String) : String :=
  ⟨s.data.map Char.toUpper⟩

namespace User

/-- `User.findById` (user.model.js): `SELECT ... FROM users WHERE id = $1`.
The column projection (with or without `password`) is applied at response
time by the controllers, so the model returns the full row here. -/
def findById (db : List StoredUser) (id : String) : Option StoredUser :=
  db.find? (fun u => u.id == id)

/-- `User.findByEmail` (user.model.js): `SELECT ... FROM users WHERE
email = $1` with the parameter `email.toLowerCase()`. -/
def findByEmail (db : List StoredUser) (email : String) : Option StoredUser :=
  db.find? (fun u => u.email == jsToLowerCase email)

/-- `allowedFields` of `User.update` (user.model.js line 158). -/
def allowedFields : List String := ["email", "full_name", "password", "role", "status"]

/-- The dynamic SET clause of `User.update`: for each key of `updateData`
that is in `allowedFields` and whose value is defined, one `key = $n`
assignment.  `updateData` is a list of (key, value) pairs where `none`
stands for a JavaScript `undefined` value. -/
def buildUpdates (updateData : List (String × Option String)) : List (String × String) :=
  updateData.filterMap (fun kv =>
    if kv.1 ∈ allowedFields then kv.2.map (fun v => (kv.1, v)) else none)

/-- Effect of one `column = value` assignment of an UPDATE statement on a
row, for every column of the `users` table. -/
def setColumn (row : StoredUser) (kv : String × String) : StoredUser :=
  match kv.1 with
  | "id" => { row with id := kv.2 }
  | "email" => { row with email := kv.2 }
  | "password" => { row with password := kv.2 }
  | "full_name" => { row with full_name := kv.2 }
  | "role" => { row with role := kv.2 }
  | "status" => { row with status := kv.2 }
  | "last_login" => { row with last_login := kv.2 }
  | "created_at" => { row with created_at := kv.2 }
  | "updated_at" => { row with updated_at := kv.2 }
  | _ => row

/-- Effect of the whole SET clause on a row. -/
def applyUpdates (row : StoredUser) (updates : List (String × String)) : StoredUser :=
  updates.foldl setColumn row

/-- `User.update` (user.model.js): builds the SET clause from the
allow-listed defined keys of `updateData`; when it is empty no UPDATE is
issued and the current row is returned (`this.findById(id)`), otherwise
the row with the given id is updated and returned. -/
def update (db : List StoredUser) (id : String) (updateData : List (String × Option String)) :
    List StoredUser × Option StoredUser :=
  let updates := buildUpdates updateData
  if updates = [] then
    (db, findById db id)
  else
    match findById db id with
    | none => (db, none)
    | some row =>
      let row2 := applyUpdates row updates
      (db.map (fun u => if u.id = id then row2 else u), some row2)

/-- `User.deactivate` (user.model.js): `this.update(id, { status: 'inactive' })`. -/
def deactivate (db : List StoredUser) (id : String) :
    List StoredUser × Option StoredUser :=
  update db id [("status", some "inactive")]

/-- `User.emailExists` (user.model.js): `SELECT id FROM users WHERE
email = $1 AND id != $2` on the lower-cased email. -/
def emailExists (db : List StoredUser) (email : String) (excludeId : String) : Bool :=
  db.any (fun u => u.email == jsToLowerCase email && u.id != excludeId)

/-- `allowedSortFields` of `User.findAll` (user.model.js line 117). -/
def allowedSortFields : List String :=
  ["created_at", "updated_at", "email", "full_name", "role", "status"]

/-- `safeSortBy` of `User.findAll` (line 118): the requested column when it
is allow-listed, `created_at` otherwise. -/
def safeSortBy (sortBy : String) : String :=
  if sortBy ∈ allowedSortFields then sortBy else "created_at"

/-- `safeSortOrder` of `User.findAll` (line 119): ASC exactly when the
upper-cased request is ASC, DESC otherwise. -/
def safeSortOrder (sortOrder : String) : String :=
  if jsToUpperCase sortOrder = "ASC" then "ASC" else "DESC"

/-- The ORDER BY clause interpolated into the SQL of `User.findAll`
(line 131). -/
def orderByClause (sortBy sortOrder : String) : String :=
  "ORDER BY " ++ safeSortBy sortBy ++ " " ++ safeSortOrder sortOrder

end User

/-- The fixed SELECT column projection used by `User.findById` and
`User.findByEmail` without password, by the SELECT of `User.findAll`, and
by the RETURNING clause of `User.update`: every column except `password`,
as a (column, value) list. -/
def publicUserRow (u : StoredUser) : List (String × String) :=
  [("id", u.id), ("email", u.email), ("full_name", u.full_name), ("role", u.role),
   ("status", u.status), ("last_login", u.last_login), ("created_at", u.created_at),
   ("updated_at", u.updated_at)]

/-- The rows returned by `User.findAll` (user.model.js line 128): the fixed
password-free SELECT projection applied to whichever rows the WHERE /
ORDER BY / LIMIT / OFFSET stages select. -/
def findAllRows (rows : List StoredUser) : List (List (String × String)) :=
  rows.map publicUserRow

/-- `validatePagination` and the controllers consume `parseInt(s, 10)`:
skip leading whitespace, optional sign, then the longest digit prefix;
NaN (here `none`) when there is no digit. -/
def jsParseInt (s : String) : Option Int :=
  let cs := s.toList.dropWhile (fun c => c.isWhitespace)
  let signed : Int × List Char :=
    match cs with
    | '-' :: rest => (-1, rest)
    | '+' :: rest => (1, rest)
    | _ => (1, cs)
  let ds := signed.2.takeWhile (fun c => c.isDigit)
  if ds.isEmpty then none
  else some (signed.1 * (ds.foldl (fun n c => n * 10 + (c.toNat - 48)) 0 : Nat))

/-- `validatePagination` (utils/validators.js lines 231-239): keep the
parsed page when it is positive, else 1; keep the parsed limit when it is
positive and at most 100, else 10. -/
def validatePagination (page limit : String) : Int × Int :=
  let parsedPage := jsParseInt page
  let parsedLimit := jsParseInt limit
  (match parsedPage with
   | some p => if p > 0 then p else 1
   | none => 1,
   match parsedLimit with
   | some l => if l > 0 ∧ l ≤ 100 then l else 10
   | none => 10)

/-- The payload accepted and re-built by `generateToken` (utils/jwt.js). -/
structure TokenPayload where
  id : String
  email : String
  role : String
deriving Repr, DecidableEq

/-- The options object of `generateToken`; `none` is an absent key. -/
structure TokenOptions where
  expiresIn : Option String := none
deriving Repr, DecidableEq

/-- A signed JWT, abstracted to its registered claims: the payload claims
plus issuer, audience, issued-at and expiry. -/
structure SignedToken where
  payload : TokenPayload
  iss : String
  aud : String
  iat : Nat
  exp : Nat
deriving Repr, DecidableEq

/-- Decimal value of a non-empty all-digit character list, `none`
otherwise. -/
def digitsToNat? (cs : List Char) : Option Nat :=
  if cs ≠ [] ∧ cs.all (fun c => c.isDigit) then
    some (cs.foldl (fun n c => n * 10 + (c.toNat - 48)) 0)
  else none

/-- Seconds denoted by an ms-style duration string, as interpreted by the
third-party `jsonwebtoken`/`ms` libraries for the formats this codebase
uses (`7d`, `30d`; hours/minutes/seconds forms included for completeness). -/
def parseDurationSeconds (s : String) : Option Nat :=
  match s.data.getLast? with
  | some 'd' => (digitsToNat? s.data.dropLast).map (fun n => n * 86400)
  | some 'h' => (digitsToNat? s.data.dropLast).map (fun n => n * 3600)
  | some 'm' => (digitsToNat? s.data.dropLast).map (fun n => n * 60)
  | some 's' => digitsToNat? s.data.dropLast
  | _ => digitsToNat? s.data

/-- `jwt.sign(tokenPayload, JWT_SECRET, tokenOptions)` abstracted: the
signed token carries the payload claims, the fixed issuer and audience of
`generateToken`, and `exp = iat +` the duration named by `expiresIn`. -/
def jwtSign (payload : TokenPayload) (iat : Nat) (expiresIn : String) : SignedToken :=
  { payload := payload
    iss := "mini-user-management"
    aud := "mini-user-management-client"
    iat := iat
    exp := iat + (parseDurationSeconds expiresIn).getD 0 }

/-- `generateToken` (utils/jwt.js lines 23-48).  `env` is the
`JWT_EXPIRES_IN` environment variable (module constant
`JWT_EXPIRES_IN = process.env.JWT_EXPIRES_IN || '7d'`); `iat` is the
issuance time in seconds.  An empty (falsy) id, email or role makes it
throw `Failed to generate token`. -/
def generateToken (env : Option String) (iat : Nat) (payload : TokenPayload)
    (options : TokenOptions) : Except String SignedToken :=
  if payload.id = "" ∨ payload.email = "" ∨ payload.role = "" then
    .error "Failed to generate token"
  else
    let tokenPayload : TokenPayload :=
      { id := payload.id, email := payload.email, role := payload.role }
    let expiresIn := options.expiresIn.getD (env.getD "7d")
    .ok (jwtSign tokenPayload iat expiresIn)

/-- The token payload built at the `generateToken` call sites of `signup`
(auth.controller.js lines 51-55) and `login` (lines 113-117):
`{ id: user.id, email: user.email, role: user.role }`. -/
def authTokenPayload (u : StoredUser) : TokenPayload :=
  { id := u.id, email := u.email, role := u.role }

/-- The `comparePassword` wrapper (utils/password.js): false on an empty
plain or hashed password, else bcrypt comparison, abstracted as `bc`. -/
def comparePassword (bc : String → String → Bool) (plain hashed : String) : Bool :=
  if plain = "" ∨ hashed = "" then false else bc plain hashed

/-- The body of a signup request, after the validation middleware. -/
structure SignupReq where
  email : String
  password : String
  full_name : String
  role : String := "user"
deriving Repr, DecidableEq

/-- The body of a login request, after the validation middleware. -/
structure LoginReq where
  email : String
  password : String
deriving Repr, DecidableEq

/-- The authenticated requester (`req.user` set by the authenticate
middleware): id and role are what the controllers consult. -/
structure Requester where
  id : String
  role : String
deriving Repr, DecidableEq

/-- The user object of a successful signup response
(auth.controller.js lines 64-71): id, email, full_name, role, status,
created_at — no password. -/
def signupResponseUser (u : StoredUser) : List (String × String) :=
  [("id", u.id), ("email", u.email), ("full_name", u.full_name), ("role", u.role),
   ("status", u.status), ("created_at", u.created_at)]

/-- The user object of a successful login response
(auth.controller.js lines 126-134): no password. -/
def loginResponseUser (u : StoredUser) : List (String × String) :=
  [("id", u.id), ("email", u.email), ("full_name", u.full_name), ("role", u.role),
   ("status", u.status), ("last_login", u.last_login), ("created_at", u.created_at)]

/-- The user object of a successful GET /api/auth/me response
(auth.controller.js lines 159-168): no password. -/
def meResponseUser (u : StoredUser) : List (String × String) :=
  [("id", u.id), ("email", u.email), ("full_name", u.full_name), ("role", u.role),
   ("status", u.status), ("last_login", u.last_login), ("created_at", u.created_at),
   ("updated_at", u.updated_at)]

/-- `signup` (auth.controller.js lines 29-75): conflict when
`User.findByEmail(email)` finds an existing user, else the new user is
inserted with status active and the password hashed by `hash`; `freshId`
and `now` stand for the database-generated id and timestamps. -/
def signup (hash : String → String) (freshId now : String) (db : List StoredUser)
    (req : SignupReq) : List StoredUser × Except AppErr (List (String × String)) :=
  match User.findByEmail db req.email with
  | some _ => (db, .error (conflictError "User with this email already exists"))
  | none =>
    let newUser : StoredUser :=
      { id := freshId, email := req.email, password := hash req.password
        full_name := req.full_name, role := req.role, status := "active"
        last_login := now, created_at := now, updated_at := now }
    (db ++ [newUser], .ok (signupResponseUser newUser))

/-- `login` (auth.controller.js lines 82-138): unknown email and wrong
password are rejected with `Invalid email or password`; an inactive
account is rejected with its own message; on success the password-free
user object is returned. -/
def login (bc : String → String → Bool) (db : List StoredUser) (req : LoginReq) :
    Except AppErr (List (String × String)) :=
  match User.findByEmail db req.email with
  | none => .error (unauthorizedError "Invalid email or password")
  | some user =>
    if user.status = "inactive" then
      .error (unauthorizedError "Your account has been deactivated. Please contact support.")
    else if comparePassword bc req.password user.password = false then
      .error (unauthorizedError "Invalid email or password")
    else
      .ok (loginResponseUser user)

/-- `getCurrentUser` (auth.controller.js lines 145-171). -/
def getCurrentUser (db : List StoredUser) (userId : String) :
    Except AppErr (List (String × String)) :=
  match User.findById db userId with
  | none => .error (notFoundError "User not found")
  | some u => .ok (meResponseUser u)

/-- `getUserById` (user.controller.js lines 84-104): admin or own profile,
then the password-free row from `User.findById`. -/
def getUserById (db : List StoredUser) (requester : Requester) (id : String) :
    Except AppErr (List (String × String)) :=
  if requester.role ≠ "admin" ∧ requester.id ≠ id then
    .error (forbiddenError "You do not have permission to view this user")
  else
    match User.findById db id with
    | none => .error (notFoundError "User not found")
    | some u => .ok (publicUserRow u)

/-- The body of a PUT /api/users/:id request; `none` is an absent key. -/
structure UpdateReq where
  email : Option String := none
  full_name : Option String := none
  role : Option String := none
  status : Option String := none
deriving Repr, DecidableEq

/-- `updateUser` (user.controller.js lines 111-155): authorization checks,
email-uniqueness check, then `User.update` with only the provided keys
(role and status only for an admin requester); the response carries the
password-free RETURNING row. -/
def updateUser (db : List StoredUser) (requester : Requester) (id : String)
    (req : UpdateReq) : List StoredUser × Except AppErr (List (String × String)) :=
  if requester.role ≠ "admin" ∧ requester.id ≠ id then
    (db, .error (forbiddenError "You do not have permission to update this user"))
  else if requester.role ≠ "admin" ∧ (req.role.isSome ∨ req.status.isSome) then
    (db, .error (forbiddenError "You do not have permission to change role or status"))
  else
    match User.findById db id with
    | none => (db, .error (notFoundError "User not found"))
    | some existingUser =>
      let emailConflict : Bool :=
        match req.email with
        | some e => e != "" && e != existingUser.email && User.emailExists db e id
        | none => false
      if emailConflict then
        (db, .error (conflictError "Email already in use"))
      else
        let updateData : List (String × Option String) :=
          [("email", req.email), ("full_name", req.full_name)] ++
            (if requester.role = "admin" then
              [("role", req.role), ("status", req.status)]
            else [])
        let r := User.update db id updateData
        (r.1, match r.2 with
              | some u2 => .ok (publicUserRow u2)
              | none => .ok [])

/-- `changePassword` (user.controller.js lines 162-195): own profile only
(no admin bypass), current password must match, then `User.update` with
the new hash. -/
def changePassword (bc : String → String → Bool) (hash : String → String)
    (db : List StoredUser) (requester : Requester) (id : String)
    (current_password new_password : String) :
    List StoredUser × Except AppErr Unit :=
  if requester.id ≠ id then
    (db, .error (forbiddenError "You can only change your own password"))
  else
    match User.findById db id with
    | none => (db, .error (notFoundError "User not found"))
    | some user =>
      if comparePassword bc current_password user.password = false then
        (db, .error (unauthorizedError "Current password is incorrect"))
      else
        let r := User.update db id [("password", some (hash new_password))]
        (r.1, .ok ())

/-- `deactivateUser` (user.controller.js lines 235-266): self-deactivation
forbidden, missing target not found, an already-inactive target returned
unchanged, otherwise `User.deactivate`. -/
def deactivateUser (db : List StoredUser) (requester : Requester) (id : String) :
    List StoredUser × Except AppErr (List (String × String)) :=
  if requester.id = id then
    (db, .error (forbiddenError "You cannot deactivate your own account"))
  else
    match User.findById db id with
    | none => (db, .error (notFoundError "User not found"))
    | some user =>
      if user.status = "inactive" then
        (db, .ok (publicUserRow user))
      else
        let r := User.deactivate db id
        (r.1, match r.2 with
              | some u2 => .ok (publicUserRow u2)
              | none => .ok [])

/-- An error value reaching the global Express error handler; `none` is an
absent (or undefined) property.  The `errors` property is a JavaScript
array when present. -/
structure JsErr where
  statusCode : Option Nat := none
  message : Option String := none
  code : Option String := none
  errors : Option (List String) := none
deriving Repr, DecidableEq

/-- The JSON error response sent by the handler. -/
structure ErrResponse where
  statusCode : Nat
  message : String
  code : String
deriving Repr, DecidableEq

/-- The global error handler (app.js lines 183-224): defaults, then the
validation-errors branch (`err.errors && Array.isArray(err.errors)`),
then the PostgreSQL 23505 and 23503 translations, then the generic
response. -/
def globalErrorHandler (err : JsErr) : ErrResponse :=
  let statusCode := err.statusCode.getD 500
  let message := err.message.getD "Internal Server Error"
  let code := err.code.getD "INTERNAL_ERROR"
  match err.errors with
  | some _ => { statusCode := statusCode, message := message, code := code }
  | none =>
    if err.code = some "23505" then
      { statusCode := 409, message := "Duplicate entry. Resource already exists."
        code := "DUPLICATE_ENTRY" }
    else if err.code = some "23503" then
      { statusCode := 400, message := "Invalid reference. Related resource not found."
        code := "INVALID_REFERENCE" }
    else
      { statusCode := statusCode, message := message, code := code }

/-- A success value constraint on an `Except` result: every `ok` payload
satisfies `P`, errors are unconstrained. -/
def okSat (P : List (String × String) → Prop) : Except AppErr (List (String × String)) → Prop
  | .ok r => P r
  | .error _ => True

/-- No `password` key among the keys of a response user object. -/
def noPasswordKey (r : List (String × String)) : Prop :=
  "password" ∉ r.map Prod.fst

/-- Shorthand for building test rows in concrete evaluations. -/
def mkUser (id email password role status : String) : StoredUser :=
  { id := id, email := email, password := password, full_name := "Test Name"
    role := role, status := status, last_login := "t0", created_at := "t0"
    updated_at := "t0" }

/-- C3: for every signup request whose lower-cased email equals the email
of an existing user, signup fails with ConflictError (409, message
`User with this email already exists`) and the stored users are unchanged. -/
theorem signup_conflict_on_existing_email
    (hash : String → String) (freshId now : String) (db : List StoredUser)
    (req : SignupReq) (h : ∃ u ∈ db, u.email = jsToLowerCase req.email) :
    signup hash freshId now db req =
      (db, .error (conflictError "User with this email already exists")) := by
  obtain ⟨u, hu, he⟩ := h
  have hsome : (User.findByEmail db req.email).isSome := by
    unfold User.findByEmail
    rw [List.find?_isSome]
    exact ⟨u, hu, by simp [he]⟩
  unfold signup
  cases hfind : User.findByEmail db req.email with
  | none => rw [hfind] at hsome; simp at hsome
  | some v => simp

theorem signup_conflict_on_existing_email_witness :
    signup (fun s => s) "u2" "t1" [mkUser "u1" "a@b.c" "h1" "user" "active"]
        { email := "A@b.c", password := "pw", full_name := "X Y" } =
      ([mkUser "u1" "a@b.c" "h1" "user" "active"],
        .error (conflictError "User with this email already exists")) :=
  signup_conflict_on_existing_email _ _ _ _ _
    ⟨mkUser "u1" "a@b.c" "h1" "user" "active", by decide, by decide⟩

/-- C5: for every change-password request whose requester id differs from
the target id, the operation fails with ForbiddenError
`You can only change your own password` and the stored rows (hence the
stored password hash) are unchanged, whatever the requester role. -/
theorem changePassword_own_profile_only
    (bc : String → String → Bool) (hash : String → String) (db : List StoredUser)
    (requester : Requester) (id current_password new_password : String)
    (h : requester.id ≠ id) :
    changePassword bc hash db requester id current_password new_password =
      (db, .error (forbiddenError "You can only change your own password")) := by
  unfold changePassword
  rw [if_pos h]

theorem changePassword_own_profile_only_witness :
    changePassword (fun _ _ => true) (fun s => s)
        [mkUser "u1" "a@b.c" "oldhash" "user" "active"]
        { id := "admin1", role := "admin" } "u1" "cur" "new" =
      ([mkUser "u1" "a@b.c" "oldhash" "user" "active"],
        .error (forbiddenError "You can only change your own password")) :=
  changePassword_own_profile_only _ _ _ _ _ _ _ (by decide)

/-- C6: the ORDER BY column of `User.findAll` is the requested one exactly
when it is allow-listed and `created_at` otherwise, the direction is ASC
exactly when the request upper-cases to ASC and DESC otherwise, and the
interpolated ORDER BY clause is built from those two values only. -/
theorem findAll_orderBy_allowlisted (sortBy sortOrder : String) :
    User.safeSortBy sortBy ∈ User.allowedSortFields
      ∧ (sortBy ∈ User.allowedSortFields → User.safeSortBy sortBy = sortBy)
      ∧ (sortBy ∉ User.allowedSortFields → User.safeSortBy sortBy = "created_at")
      ∧ (User.safeSortOrder sortOrder = "ASC" ↔ jsToUpperCase sortOrder = "ASC")
      ∧ (jsToUpperCase sortOrder ≠ "ASC" → User.safeSortOrder sortOrder = "DESC")
      ∧ User.orderByClause sortBy sortOrder =
          "ORDER BY " ++ User.safeSortBy sortBy ++ " " ++ User.safeSortOrder sortOrder := by
  refine ⟨?_, ?_, ?_, ?_, ?_, rfl⟩
  · by_cases h : sortBy ∈ User.allowedSortFields
    · unfold User.safeSortBy; rw [if_pos h]; exact h
    · unfold User.safeSortBy; rw [if_neg h]; decide
  · intro h; unfold User.safeSortBy; rw [if_pos h]
  · intro h; unfold User.safeSortBy; rw [if_neg h]
  · unfold User.safeSortOrder
    by_cases h : jsToUpperCase sortOrder = "ASC"
    · rw [if_pos h]; simp [h]
    · rw [if_neg h]; simp [h]
  · intro h; unfold User.safeSortOrder; rw [if_neg h]

theorem findAll_orderBy_allowlisted_witness :
    User.safeSortBy "email" = "email"
      ∧ User.safeSortBy "evil_column" = "created_at"
      ∧ User.safeSortOrder "desc" = "DESC" :=
  ⟨(findAll_orderBy_allowlisted "email" "x").2.1 (by decide),
   (findAll_orderBy_allowlisted "evil_column" "x").2.2.1 (by decide),
   (findAll_orderBy_allowlisted "x" "desc").2.2.2.2.1 (by decide)⟩

/-- C7 counterexample: an error that carries PostgreSQL code 23505 but
also an array-valued `errors` property is answered by the earlier
validation-errors branch of the handler, with its own status code (422
here) and code `23505` instead of 409 / DUPLICATE_ENTRY. -/
theorem errorHandler_23505_counterexample :
    globalErrorHandler
        { statusCode := some 422, message := some "boom", code := some "23505"
          errors := some ["dup"] } =
      { statusCode := 422, message := "boom", code := "23505" }
      ∧ (422 : Nat) ≠ 409 :=
  ⟨rfl, by decide⟩

/-- C7 (amended): for every error without an array-valued `errors`
property, code 23505 is translated to HTTP 409 / DUPLICATE_ENTRY and code
23503 to HTTP 400 / INVALID_REFERENCE. -/
theorem errorHandler_pg_translations (err : JsErr) :
    (err.errors = none → err.code = some "23505" →
      globalErrorHandler err =
        { statusCode := 409, message := "Duplicate entry. Resource already exists."
          code := "DUPLICATE_ENTRY" })
      ∧ (err.errors = none → err.code = some "23503" →
      globalErrorHandler err =
        { statusCode := 400, message := "Invalid reference. Related resource not found."
          code := "INVALID_REFERENCE" }) := by
  constructor
  · intro he hc
    simp [globalErrorHandler, he, hc]
  · intro he hc
    simp [globalErrorHandler, he, hc]

theorem errorHandler_pg_translations_witness :
    globalErrorHandler { code := some "23505" } =
        { statusCode := 409, message := "Duplicate entry. Resource already exists."
          code := "DUPLICATE_ENTRY" }
      ∧ globalErrorHandler { code := some "23503" } =
        { statusCode := 400, message := "Invalid reference. Related resource not found."
          code := "INVALID_REFERENCE" } :=
  ⟨(errorHandler_pg_translations _).1 rfl rfl,
   (errorHandler_pg_translations _).2 rfl rfl⟩

/-- C10: for all raw query inputs, the validated page is at least 1 and
the validated limit is between 1 and 100; the parsed page is kept exactly
when positive (else 1) and the parsed limit is kept exactly when positive
and at most 100 (else 10). -/
theorem validatePagination_bounds (page limit : String) :
    (1 ≤ (validatePagination page limit).1
      ∧ 1 ≤ (validatePagination page limit).2
      ∧ (validatePagination page limit).2 ≤ 100)
      ∧ (∀ p, jsParseInt page = some p → 0 < p → (validatePagination page limit).1 = p)
      ∧ (∀ p, jsParseInt page = some p → ¬ 0 < p → (validatePagination page limit).1 = 1)
      ∧ (jsParseInt page = none → (validatePagination page limit).1 = 1)
      ∧ (∀ l, jsParseInt limit = some l → 0 < l ∧ l ≤ 100 →
          (validatePagination page limit).2 = l)
      ∧ (∀ l, jsParseInt limit = some l → ¬ (0 < l ∧ l ≤ 100) →
          (validatePagination page limit).2 = 10)
      ∧ (jsParseInt limit = none → (validatePagination page limit).2 = 10) := by
  have hfst : (validatePagination page limit).1 =
      (match jsParseInt page with
       | some p => if p > 0 then p else 1
       | none => 1) := rfl
  have hsnd : (validatePagination page limit).2 =
      (match jsParseInt limit with
       | some l => if l > 0 ∧ l ≤ 100 then l else 10
       | none => 10) := rfl
  refine ⟨⟨?_, ?_, ?_⟩, ?_, ?_, ?_, ?_, ?_, ?_⟩
  · cases h : jsParseInt page with
    | none =>
      have hv : (validatePagination page limit).1 = 1 := by rw [hfst, h]
      omega
    | some p =>
      have hv : (validatePagination page limit).1 = if p > 0 then p else 1 := by
        rw [hfst, h]
      rw [hv]; split_ifs with hp <;> omega
  · cases h : jsParseInt limit with
    | none =>
      have hv : (validatePagination page limit).2 = 10 := by rw [hsnd, h]
      omega
    | some l =>
      have hv : (validatePagination page limit).2 = if l > 0 ∧ l ≤ 100 then l else 10 := by
        rw [hsnd, h]
      rw [hv]; split_ifs with hl <;> omega
  · cases h : jsParseInt limit with
    | none =>
      have hv : (validatePagination page limit).2 = 10 := by rw [hsnd, h]
      omega
    | some l =>
      have hv : (validatePagination page limit).2 = if l > 0 ∧ l ≤ 100 then l else 10 := by
        rw [hsnd, h]
      rw [hv]; split_ifs with hl <;> omega
  · intro p hp hpos
    have hv : (validatePagination page limit).1 = if p > 0 then p else 1 := by
      rw [hfst, hp]
    rw [hv, if_pos hpos]
  · intro p hp hpos
    have hv : (validatePagination page limit).1 = if p > 0 then p else 1 := by
      rw [hfst, hp]
    rw [hv, if_neg hpos]
  · intro hp; rw [hfst, hp]
  · intro l hl hin
    have hv : (validatePagination page limit).2 = if l > 0 ∧ l ≤ 100 then l else 10 := by
      rw [hsnd, hl]
    rw [hv, if_pos hin]
  · intro l hl hout
    have hv : (validatePagination page limit).2 = if l > 0 ∧ l ≤ 100 then l else 10 := by
      rw [hsnd, hl]
    rw [hv, if_neg hout]
  · intro hl; rw [hsnd, hl]

theorem validatePagination_bounds_witness :
    (validatePagination "2" "250").1 = 2
      ∧ (validatePagination "2" "250").2 = 10
      ∧ (validatePagination "-3" "abc").1 = 1
      ∧ (validatePagination "-3" "abc").2 = 10 :=
  ⟨(validatePagination_bounds "2" "250").2.1 2 (by decide) (by decide),
   (validatePagination_bounds "2" "250").2.2.2.2.2.1 250 (by decide) (by decide),
   (validatePagination_bounds "-3" "abc").2.2.1 (-3) (by decide) (by decide),
   (validatePagination_bounds "-3" "abc").2.2.2.2.2.2 (by decide)⟩

theorem findById_some_id {db : List StoredUser} {id : String} {row : StoredUser}
    (hfind : User.findById db id = some row) : row.id = id := by
  have h2 : List.find? (fun u => u.id == id) db = some row := hfind
  have hp := List.find?_some h2
  exact eq_of_beq hp

theorem findById_map_replace (db : List StoredUser) (id : String) (row row2 : StoredUser)
    (hfind : User.findById db id = some row) (hrow2 : row2.id = id) :
    User.findById (db.map (fun u => if u.id = id then row2 else u)) id = some row2 := by
  induction db with
  | nil => simp [User.findById] at hfind
  | cons u rest ih =>
    by_cases h : u.id = id
    · have hp : ((row2.id == id) = true) := by simp [hrow2]
      simp only [List.map_cons, if_pos h]
      unfold User.findById
      exact List.find?_cons_of_pos _ hp
    · have hp : ¬ ((u.id == id) = true) := by simp [h]
      unfold User.findById at hfind
      rw [List.find?_cons_of_neg (p := fun v : StoredUser => v.id == id) _ hp] at hfind
      simp only [List.map_cons, if_neg h]
      unfold User.findById
      rw [List.find?_cons_of_neg (p := fun v : StoredUser => v.id == id) _ hp]
      exact ih hfind

theorem buildUpdates_keys_allowed (updateData : List (String × Option String)) :
    ∀ k ∈ (User.buildUpdates updateData).map Prod.fst, k ∈ User.allowedFields := by
  intro k hk
  rw [List.mem_map] at hk
  obtain ⟨kv, hkv, hfst⟩ := hk
  rw [User.buildUpdates, List.mem_filterMap] at hkv
  obtain ⟨a, _, hfa⟩ := hkv
  by_cases hmem : a.1 ∈ User.allowedFields
  · rw [if_pos hmem] at hfa
    cases hv : a.2 with
    | none =>
      rw [hv] at hfa
      exact absurd hfa (by simp)
    | some v =>
      rw [hv] at hfa
      have hkv2 : (a.1, v) = kv := by simpa using hfa
      rw [← hfst, ← hkv2]
      exact hmem
  · rw [if_neg hmem] at hfa
    exact absurd hfa (by simp)

theorem buildUpdates_eq_nil (updateData : List (String × Option String))
    (h : ∀ kv ∈ updateData, kv.1 ∈ User.allowedFields → kv.2 = none) :
    User.buildUpdates updateData = [] := by
  induction updateData with
  | nil => rfl
  | cons kv rest ih =>
    have hrest := ih (fun a ha hm => h a (by simp [ha]) hm)
    by_cases hm : kv.1 ∈ User.allowedFields
    · have h2 : kv.2 = none := h kv (by simp) hm
      unfold User.buildUpdates at hrest ⊢
      rw [List.filterMap_cons, if_pos hm, h2]
      exact hrest
    · unfold User.buildUpdates at hrest ⊢
      rw [List.filterMap_cons, if_neg hm]
      exact hrest

theorem applyUpdates_frame (updates : List (String × String)) (row : StoredUser)
    (h : ∀ k ∈ updates.map Prod.fst, k ∈ User.allowedFields) :
    (User.applyUpdates row updates).id = row.id
      ∧ (User.applyUpdates row updates).created_at = row.created_at
      ∧ (User.applyUpdates row updates).last_login = row.last_login := by
  induction updates generalizing row with
  | nil => exact ⟨rfl, rfl, rfl⟩
  | cons kv rest ih =>
    have hk : kv.1 ∈ User.allowedFields := h kv.1 (by simp)
    have hrest : ∀ k ∈ rest.map Prod.fst, k ∈ User.allowedFields := by
      intro k hk2
      exact h k (by simp [hk2])
    have hset : (User.setColumn row kv).id = row.id
        ∧ (User.setColumn row kv).created_at = row.created_at
        ∧ (User.setColumn row kv).last_login = row.last_login := by
      unfold User.allowedFields at hk
      simp only [List.mem_cons, List.not_mem_nil, or_false] at hk
      rcases hk with h1 | h1 | h1 | h1 | h1 <;> simp [User.setColumn, h1]
    have happ : User.applyUpdates row (kv :: rest) =
        User.applyUpdates (User.setColumn row kv) rest := rfl
    rw [happ]
    obtain ⟨i1, i2, i3⟩ := ih (User.setColumn row kv) hrest
    exact ⟨i1.trans hset.1, i2.trans hset.2.1, i3.trans hset.2.2⟩

theorem noPasswordKey_publicUserRow (u : StoredUser) : noPasswordKey (publicUserRow u) := by
  simp [noPasswordKey, publicUserRow]

theorem noPasswordKey_signupResponseUser (u : StoredUser) :
    noPasswordKey (signupResponseUser u) := by
  simp [noPasswordKey, signupResponseUser]

theorem noPasswordKey_loginResponseUser (u : StoredUser) :
    noPasswordKey (loginResponseUser u) := by
  simp [noPasswordKey, loginResponseUser]

theorem noPasswordKey_meResponseUser (u : StoredUser) :
    noPasswordKey (meResponseUser u) := by
  simp [noPasswordKey, meResponseUser]

theorem findAllRows_no_password (db : List StoredUser) :
    (findAllRows db).all (fun r => !((r.map Prod.fst).contains "password")) = true := by
  induction db with
  | nil => rfl
  | cons u rest ih =>
    show (!(((publicUserRow u).map Prod.fst).contains "password")
        && (findAllRows rest).all (fun r => !((r.map Prod.fst).contains "password"))) = true
    rw [ih, Bool.and_true]
    rfl

/-- C1 counterexample: a login that fails because the account is inactive
is rejected with `Your account has been deactivated. Please contact
support.`, not with `Invalid email or password`, so the two failure
causes are distinguishable. -/
theorem login_inactive_message_counterexample :
    login (fun _ _ => true) [mkUser "u9" "c@d.e" "h9" "user" "inactive"]
        { email := "c@d.e", password := "h9" } =
      .error (unauthorizedError "Your account has been deactivated. Please contact support.")
      ∧ unauthorizedError "Your account has been deactivated. Please contact support."
        ≠ unauthorizedError "Invalid email or password" := by
  exact ⟨rfl, by decide⟩

/-- C1 (amended): login failures for an unknown email or a wrong password
use UnauthorizedError `Invalid email or password`; a login that fails
because the account is inactive is rejected with UnauthorizedError
`Your account has been deactivated. Please contact support.`, so that
failure cause is distinguishable in the response. -/
theorem login_failure_messages (bc : String → String → Bool)
    (db : List StoredUser) (req : LoginReq) :
    (User.findByEmail db req.email = none →
      login bc db req = .error (unauthorizedError "Invalid email or password"))
      ∧ (∀ u, User.findByEmail db req.email = some u → u.status = "inactive" →
      login bc db req =
        .error (unauthorizedError "Your account has been deactivated. Please contact support."))
      ∧ (∀ u, User.findByEmail db req.email = some u → u.status ≠ "inactive" →
      comparePassword bc req.password u.password = false →
      login bc db req = .error (unauthorizedError "Invalid email or password")) := by
  refine ⟨?_, ?_, ?_⟩
  · intro h
    unfold login
    rw [h]
  · intro u hu hs
    unfold login
    rw [hu]
    simp [hs]
  · intro u hu hs hpw
    unfold login
    rw [hu]
    simp [hs, hpw]

theorem login_failure_messages_witness :
    login (fun _ _ => false) [] { email := "x@y.z", password := "pw" } =
      .error (unauthorizedError "Invalid email or password")
      ∧ login (fun _ _ => false) [mkUser "u1" "a@b.c" "h1" "user" "inactive"]
        { email := "a@b.c", password := "pw" } =
      .error (unauthorizedError "Your account has been deactivated. Please contact support.")
      ∧ login (fun _ _ => false) [mkUser "u1" "a@b.c" "h1" "user" "active"]
        { email := "a@b.c", password := "pw" } =
      .error (unauthorizedError "Invalid email or password") :=
  ⟨(login_failure_messages _ _ _).1 rfl,
   (login_failure_messages _ _ _).2.1 (mkUser "u1" "a@b.c" "h1" "user" "inactive") rfl rfl,
   (login_failure_messages _ _ _).2.2 (mkUser "u1" "a@b.c" "h1" "user" "active") rfl
     (by decide) rfl⟩

/-- C4: a request to deactivate the requester's own id fails with
ForbiddenError 403 `You cannot deactivate your own account` and leaves
the stored users unchanged; deactivating any other existing user leaves
that user stored with status inactive. -/
theorem deactivateUser_self_protect (db : List StoredUser)
    (requester : Requester) (id : String) :
    (requester.id = id →
      deactivateUser db requester id =
        (db, .error (forbiddenError "You cannot deactivate your own account")))
      ∧ (requester.id ≠ id → ∀ u, User.findById db id = some u →
      ∃ v, User.findById (deactivateUser db requester id).1 id = some v
        ∧ v.status = "inactive") := by
  constructor
  · intro h
    unfold deactivateUser
    rw [if_pos h]
  · intro h u hu
    by_cases hs : u.status = "inactive"
    · have he : deactivateUser db requester id = (db, .ok (publicUserRow u)) := by
        simp [deactivateUser, h, hu, hs]
      rw [he]
      exact ⟨u, hu, hs⟩
    · have hid : u.id = id := findById_some_id hu
      have hupd : User.deactivate db id =
          (db.map (fun v => if v.id = id then { u with status := "inactive" } else v),
            some { u with status := "inactive" }) := by
        simp [User.deactivate, User.update, User.buildUpdates, User.allowedFields, hu,
          User.applyUpdates, User.setColumn]
      have he : (deactivateUser db requester id).1 =
          db.map (fun v => if v.id = id then { u with status := "inactive" } else v) := by
        simp [deactivateUser, h, hu, hs, hupd]
      rw [he]
      exact ⟨{ u with status := "inactive" },
        findById_map_replace db id u { u with status := "inactive" } hu
          (show ({ u with status := "inactive" } : StoredUser).id = id from hid),
        rfl⟩

theorem deactivateUser_self_protect_witness :
    deactivateUser [mkUser "a1" "ad@b.c" "h2" "admin" "active"]
        { id := "a1", role := "admin" } "a1" =
      ([mkUser "a1" "ad@b.c" "h2" "admin" "active"],
        .error (forbiddenError "You cannot deactivate your own account"))
      ∧ ∃ v, User.findById
          (deactivateUser
            [mkUser "a1" "ad@b.c" "h2" "admin" "active",
             mkUser "u1" "a@b.c" "h1" "user" "active"]
            { id := "a1", role := "admin" } "u1").1 "u1" = some v
          ∧ v.status = "inactive" :=
  ⟨(deactivateUser_self_protect _ _ _).1 rfl,
   (deactivateUser_self_protect _ _ _).2 (by decide)
     (mkUser "u1" "a@b.c" "h1" "user" "active") rfl⟩

/-- C8: with no explicit expiresIn option and no JWT_EXPIRES_IN
environment variable, the token issued for a user via the payload built
at the signup and login call sites carries exactly the id, email and
role claims and expires 7 days (604800 seconds) after issuance. -/
theorem generateToken_default_payload_and_expiry (iat : Nat) (u : StoredUser)
    (hid : u.id ≠ "") (hem : u.email ≠ "") (hro : u.role ≠ "") :
    generateToken none iat (authTokenPayload u) {} =
      .ok { payload := { id := u.id, email := u.email, role := u.role }
            iss := "mini-user-management", aud := "mini-user-management-client"
            iat := iat, exp := iat + 7 * 24 * 60 * 60 } := by
  have h7 : parseDurationSeconds "7d" = some 604800 := by decide
  unfold generateToken authTokenPayload
  rw [if_neg (by simp [hid, hem, hro])]
  simp [jwtSign, h7]

theorem generateToken_default_payload_and_expiry_witness :
    generateToken none 1000
        (authTokenPayload (mkUser "u1" "a@b.c" "h1" "user" "active")) {} =
      .ok { payload := { id := "u1", email := "a@b.c", role := "user" }
            iss := "mini-user-management", aud := "mini-user-management-client"
            iat := 1000, exp := 1000 + 7 * 24 * 60 * 60 } :=
  generateToken_default_payload_and_expiry 1000 _ (by decide) (by decide) (by decide)

/-- C9: `User.update` only ever writes allow-listed columns: every key of
the SET clause is in `allowedFields`; when `updateData` has no
allow-listed key with a defined value no UPDATE is issued and the current
row is returned; and any returned updated row keeps the id, created_at
and last_login of the stored row. -/
theorem update_frame_and_allowlist (db : List StoredUser) (id : String)
    (updateData : List (String × Option String)) :
    (∀ k ∈ (User.buildUpdates updateData).map Prod.fst, k ∈ User.allowedFields)
      ∧ ((∀ kv ∈ updateData, kv.1 ∈ User.allowedFields → kv.2 = none) →
      User.update db id updateData = (db, User.findById db id))
      ∧ (∀ row r2, User.findById db id = some row →
      (User.update db id updateData).2 = some r2 →
      r2.id = row.id ∧ r2.created_at = row.created_at ∧ r2.last_login = row.last_login) := by
  refine ⟨buildUpdates_keys_allowed updateData, ?_, ?_⟩
  · intro h
    have hb := buildUpdates_eq_nil updateData h
    simp [User.update, hb]
  · intro row r2 hrow hr2
    by_cases hb : User.buildUpdates updateData = []
    · have hv : (User.update db id updateData).2 = User.findById db id := by
        simp [User.update, hb]
      rw [hv, hrow] at hr2
      obtain rfl := Option.some.inj hr2
      exact ⟨rfl, rfl, rfl⟩
    · have hv : (User.update db id updateData).2 =
          some (User.applyUpdates row (User.buildUpdates updateData)) := by
        simp [User.update, hb, hrow]
      rw [hv] at hr2
      obtain rfl := Option.some.inj hr2
      exact applyUpdates_frame _ row (buildUpdates_keys_allowed updateData)

theorem update_frame_and_allowlist_witness :
    "full_name" ∈ User.allowedFields
      ∧ User.update [mkUser "u1" "a@b.c" "h1" "user" "active"] "u1"
          [("id", some "evil"), ("email", none)] =
        ([mkUser "u1" "a@b.c" "h1" "user" "active"],
          User.findById [mkUser "u1" "a@b.c" "h1" "user" "active"] "u1")
      ∧ ((User.applyUpdates (mkUser "u1" "a@b.c" "h1" "user" "active")
            [("full_name", "New Name")]).id
          = (mkUser "u1" "a@b.c" "h1" "user" "active").id
        ∧ (User.applyUpdates (mkUser "u1" "a@b.c" "h1" "user" "active")
            [("full_name", "New Name")]).created_at
          = (mkUser "u1" "a@b.c" "h1" "user" "active").created_at
        ∧ (User.applyUpdates (mkUser "u1" "a@b.c" "h1" "user" "active")
            [("full_name", "New Name")]).last_login
          = (mkUser "u1" "a@b.c" "h1" "user" "active").last_login) :=
  ⟨(update_frame_and_allowlist [mkUser "u1" "a@b.c" "h1" "user" "active"] "u1"
      [("full_name", some "New Name")]).1 "full_name" (by decide),
   (update_frame_and_allowlist [mkUser "u1" "a@b.c" "h1" "user" "active"] "u1"
      [("id", some "evil"), ("email", none)]).2.1 (by decide),
   (update_frame_and_allowlist [mkUser "u1" "a@b.c" "h1" "user" "active"] "u1"
      [("full_name", some "New Name")]).2.2 _ _ (by decide) (by decide)⟩

/-- C2: every successful response of signup, login, get-current-user,
list-users, get-user-by-id and update-user carries a user object without
a password key, although the stored rows do have a password column. -/
theorem responses_never_return_password
    (hash : String → String) (bc : String → String → Bool) (freshId now : String)
    (db : List StoredUser) (sreq : SignupReq) (lreq : LoginReq) (userId : String)
    (requester : Requester) (id : String) (ureq : UpdateReq) :
    okSat noPasswordKey (signup hash freshId now db sreq).2
      ∧ okSat noPasswordKey (login bc db lreq)
      ∧ okSat noPasswordKey (getCurrentUser db userId)
      ∧ (findAllRows db).all (fun r => !((r.map Prod.fst).contains "password")) = true
      ∧ okSat noPasswordKey (getUserById db requester id)
      ∧ okSat noPasswordKey (updateUser db requester id ureq).2 := by
  refine ⟨?_, ?_, ?_, findAllRows_no_password db, ?_, ?_⟩
  · unfold signup
    split
    · trivial
    · exact noPasswordKey_signupResponseUser _
  · unfold login
    split
    · trivial
    · split
      · trivial
      · split
        · trivial
        · exact noPasswordKey_loginResponseUser _
  · unfold getCurrentUser
    split
    · trivial
    · exact noPasswordKey_meResponseUser _
  · unfold getUserById
    split
    · trivial
    · split
      · trivial
      · exact noPasswordKey_publicUserRow _
  · unfold updateUser
    repeat'
      first
        | exact True.intro
        | exact noPasswordKey_publicUserRow _
        | exact List.not_mem_nil _
        | split
        | dsimp only

end MiniUserMgmt
